import Mathlib

/-!
Verification of the payment-reconciliation and booking-validation logic of the
`alx_travel_app` backend, shallowly embedded from the Python source
(`listings/views.py`, `listings/serializers.py`, `listings/chapa_service.py`,
`listings/models.py` and the initial migration).

Conventions:
* Payment and Booking statuses become inductive types over the exact string
  choices of the migration.
* JSON dictionaries whose precise values the handlers only merge are modelled
  as association lists `List (String × String)`; Python `dict.update` becomes
  `dictUpdate`.
* `timezone.now()` is a `Nat` parameter threaded into each handler call.
* Celery `.delay(...)` email dispatches are collected in a result list.
* HTTP responses are an inductive `Resp`.
-/

namespace AlxTravel

/-- Internal payment statuses, exactly the choices of the Payment model column
in the initial migration: pending / processing / completed / failed / cancelled. -/
inductive PayStatus
  | pending
  | processing
  | completed
  | failed
  | cancelled
deriving DecidableEq, Repr

/-- Booking statuses, exactly the choices of the Booking model column in the
initial migration: pending / confirmed / cancelled. -/
inductive BookStatus
  | pending
  | confirmed
  | cancelled
deriving DecidableEq, Repr

/-- A JSON-object payload, abstracted to an association list from keys to
(serialized) values. -/
abbrev Dict := List (String × String)

/-- ASCII lowercase of one character (the provider status strings the handlers
lowercase are ASCII). -/
def lowerChar (c : Char) : Char :=
  if 65 ≤ c.toNat ∧ c.toNat ≤ 90 then Char.ofNat (c.toNat + 32) else c

/-- Python `str.lower()` on the ASCII status strings. -/
def lowerStr (s : String) : String :=
  ⟨s.data.map lowerChar⟩

/-- ASCII whitespace, as Python `str.strip()` removes it on the inputs at
hand. -/
def isSpaceChar (c : Char) : Bool :=
  c = ' ' ∨ c = '\t' ∨ c = '\n' ∨ c = '\r'

/-- Python `str.strip()`: drop leading and trailing whitespace. -/
def stripStr (s : String) : String :=
  ⟨((s.data.dropWhile isSpaceChar).reverse.dropWhile isSpaceChar).reverse⟩

/-- Python `old.update(new)`: every key of `new` overwrites the corresponding
key of `old`; keys of `old` absent from `new` are kept. -/
def dictUpdate (old new : Dict) : Dict :=
  old.filter (fun kv => !(new.any (fun kv2 => kv2.1 == kv.1))) ++ new

/-- Emails dispatched asynchronously by the handlers (`tasks.py`):
`send_payment_confirmation_email.delay(booking_id, payment_id)` and
`send_payment_failure_email.delay(booking_id, payment_id, message)`. -/
inductive EmailMsg
  | paymentConfirmation (bookingId : Nat)
  | paymentFailure (bookingId : Nat) (msg : String)
deriving DecidableEq, Repr

/-- The fields of a Payment row (plus its one-to-one Booking's status) that the
verify/webhook handlers read or write: `status`, `completed_at`,
`chapa_response_data`, the lookup key `booking_reference`, and
`booking.status` (the handlers touch no other Booking column). -/
structure PaymentRec where
  bookingId : Nat
  bookingReference : String
  status : PayStatus
  completedAt : Option Nat
  chapaResponseData : Dict
  bookingStatus : BookStatus
deriving DecidableEq, Repr

/-- HTTP responses produced by the embedded endpoints. -/
inductive Resp
  | ok
  | noContent
  | badRequest (msg : String)
  | notFound (msg : String)
  | serverError (msg : String)
deriving DecidableEq, Repr

/-- `chapa_response.get("data", dict())` of the verify handler: the provider's
nested data object, of which the handler reads `status` and `message`. -/
structure ChapaData where
  status : Option String
  message : Option String
deriving DecidableEq, Repr

/-- The provider response consumed by the verify handler: the nested `data`
object plus the raw dictionary that gets merged into `chapa_response_data`. -/
structure ChapaResponse where
  data : Option ChapaData
  raw : Dict
deriving DecidableEq, Repr

/-- The untrusted inbound webhook payload (`request.data`): `tx_ref`, `status`
and `message` keys as the handler reads them, plus the raw dictionary merged
into `chapa_response_data`. -/
structure WebhookPayload where
  txRef : Option String
  status : Option String
  message : Option String
  raw : Dict
deriving DecidableEq, Repr

/-- `webhook_data.get("status", "").lower()` (views.py, webhook handler). -/
def wStatusOf (w : WebhookPayload) : String :=
  lowerStr (w.status.getD "")

/-- `chapa_response.get("data", dict()).get("status", "").lower()`
(views.py, verify handler). -/
def chapaStatusOf (r : ChapaResponse) : String :=
  lowerStr ((r.data.getD ⟨none, none⟩).status.getD "")

/-- Outcome of running one handler on one Payment row: the updated row, the
emails dispatched during the call, and the HTTP response. -/
structure StepResult where
  payment : PaymentRec
  emails : List EmailMsg
  resp : Resp
deriving DecidableEq, Repr

/-- `PaymentViewSet.verify` (views.py), after the payment lookup and the access
check, parameterized by the outcome `(success, chapa_response)` of
`ChapaService.verify_payment`.  On `success` the Chapa-reported status drives
the transition: `"success"` sets the payment to completed with a fresh
`completed_at` and confirms the booking (confirmation email only when the old
status was not already completed); `"failed"`/`"cancelled"` copy that value
(failure email only when the old status was in neither); any other value
changes no status.  In every `success` branch the raw response is merged into
`chapa_response_data` and the row is saved.  On provider failure nothing is
mutated and a 400 with the provider error is returned. -/
def verifyHandler (p : PaymentRec) (success : Bool) (r : ChapaResponse)
    (now : Nat) : StepResult :=
  if success then
    let chapaStatus := chapaStatusOf r
    let oldStatus := p.status
    if chapaStatus = "success" then
      let p1 : PaymentRec :=
        { p with
          status := PayStatus.completed
          completedAt := some now
          bookingStatus := BookStatus.confirmed
          chapaResponseData := dictUpdate p.chapaResponseData r.raw }
      let emails :=
        if oldStatus ≠ PayStatus.completed then
          [EmailMsg.paymentConfirmation p.bookingId]
        else []
      ⟨p1, emails, Resp.ok⟩
    else if chapaStatus = "failed" ∨ chapaStatus = "cancelled" then
      let newStatus :=
        if chapaStatus = "failed" then PayStatus.failed else PayStatus.cancelled
      let p1 : PaymentRec :=
        { p with
          status := newStatus
          chapaResponseData := dictUpdate p.chapaResponseData r.raw }
      let emails :=
        if oldStatus ≠ PayStatus.failed ∧ oldStatus ≠ PayStatus.cancelled then
          [EmailMsg.paymentFailure p.bookingId
            ((r.data.getD ⟨none, none⟩).message.getD "")]
        else []
      ⟨p1, emails, Resp.ok⟩
    else
      let p1 : PaymentRec :=
        { p with chapaResponseData := dictUpdate p.chapaResponseData r.raw }
      ⟨p1, [], Resp.ok⟩
  else
    ⟨p, [],
      Resp.badRequest
        (((r.raw.find? (fun kv => kv.1 == "error")).map (fun kv => kv.2)).getD
          "Payment verification failed")⟩

/-- The status-transition core of `PaymentViewSet.webhook` (views.py), applied
to the Payment row found for the payload's `tx_ref`.  Identical transition code
to the verify handler, except that the status and failure message are read from
the webhook payload itself, and the payload dictionary is what gets merged into
`chapa_response_data`. -/
def webhookApply (p : PaymentRec) (w : WebhookPayload) (now : Nat) :
    PaymentRec × List EmailMsg :=
  let st := wStatusOf w
  let oldStatus := p.status
  if st = "success" then
    let p1 : PaymentRec :=
      { p with
        status := PayStatus.completed
        completedAt := some now
        bookingStatus := BookStatus.confirmed
        chapaResponseData := dictUpdate p.chapaResponseData w.raw }
    let emails :=
      if oldStatus ≠ PayStatus.completed then
        [EmailMsg.paymentConfirmation p.bookingId]
      else []
    (p1, emails)
  else if st = "failed" ∨ st = "cancelled" then
    let newStatus :=
      if st = "failed" then PayStatus.failed else PayStatus.cancelled
    let p1 : PaymentRec :=
      { p with
        status := newStatus
        chapaResponseData := dictUpdate p.chapaResponseData w.raw }
    let emails :=
      if oldStatus ≠ PayStatus.failed ∧ oldStatus ≠ PayStatus.cancelled then
        [EmailMsg.paymentFailure p.bookingId (w.message.getD "")]
      else []
    (p1, emails)
  else
    ({ p with chapaResponseData := dictUpdate p.chapaResponseData w.raw }, [])

/-- `Payment.objects.get(booking_reference=tx_ref)` (booking_reference is
unique per the migration). -/
def findPayment (db : List PaymentRec) (ref : String) : Option PaymentRec :=
  db.find? (fun p => p.bookingReference == ref)

/-- Outcome of the whole webhook endpoint over the payment table. -/
structure WebhookResult where
  db : List PaymentRec
  emails : List EmailMsg
  resp : Resp
deriving DecidableEq, Repr

/-- `PaymentViewSet.webhook` (views.py), whole endpoint.  The handler first
binds the local variable `status` to the lowercased payload status string,
shadowing the imported `rest_framework.status` module.  Consequently both
error paths — missing/empty `tx_ref` and unknown `tx_ref` — evaluate
`status.HTTP_400_BAD_REQUEST` resp. `status.HTTP_404_NOT_FOUND` on a string,
raising `AttributeError`, which the enclosing `except Exception` turns into an
HTTP 500 `Webhook processing failed` response; neither intended 400/404
response is reachable.  No row is mutated on those paths.  When the payment is
found, the transition core `webhookApply` runs and the updated row is saved. -/
def webhookEndpoint (db : List PaymentRec) (w : WebhookPayload) (now : Nat) :
    WebhookResult :=
  if w.txRef.getD "" = "" then
    ⟨db, [], Resp.serverError "Webhook processing failed"⟩
  else
    let ref := w.txRef.getD ""
    match findPayment db ref with
    | none => ⟨db, [], Resp.serverError "Webhook processing failed"⟩
    | some p =>
      let res := webhookApply p w now
      ⟨db.map (fun q => if q.bookingReference == ref then res.1 else q),
        res.2, Resp.ok⟩

/-- One stored Booking row, with the fields that
`BookingWithPaymentSerializer.validate` (serializers.py) queries: listing
foreign key, date range and status.  Dates are day ordinals (`Int`), matching
Python's `datetime.date` arithmetic where `d2 - d1` has `.days = ord d2 - ord d1`. -/
structure BookingRec where
  id : Nat
  listing : Nat
  startDate : Int
  endDate : Int
  status : BookStatus
deriving DecidableEq, Repr

/-- The overlap query of `BookingWithPaymentSerializer.validate`:
`Booking.objects.filter(listing=listing, start_date__lt=end, end_date__gt=start,
status__in=["pending", "confirmed"])`, excluding `self.instance` when updating. -/
def overlappingExists (db : List BookingRec) (l : Nat) (s e : Int)
    (inst : Option Nat) : Bool :=
  db.any (fun b =>
    decide (b.listing = l) && decide (b.startDate < e) && decide (s < b.endDate)
      && (decide (b.status = BookStatus.pending)
            || decide (b.status = BookStatus.confirmed))
      && !(decide (inst = some b.id)))

/-- `BookingWithPaymentSerializer.validate` (serializers.py): reject when
start ≥ end, when the stay is shorter than one night, when the start date is
in the past, or when an overlapping pending/confirmed booking exists on the
same listing (excluding the instance being updated). -/
def bookingValidate (db : List BookingRec) (today : Int) (listing : Option Nat)
    (s e : Int) (inst : Option Nat) : Except String Unit :=
  if s ≥ e then Except.error "End date must be after start date."
  else if e - s < 1 then Except.error "Booking must be for at least one night."
  else if s < today then Except.error "Cannot book for past dates."
  else
    match listing with
    | some l =>
      if overlappingExists db l s e inst then
        Except.error "This listing is already booked for the selected dates."
      else Except.ok ()
    | none => Except.ok ()

/-- `BookingWithPaymentSerializer.get_nights_count` (serializers.py):
`(end_date - start_date).days` when both dates are present, else 0. -/
def nightsCount (s e : Option Int) : Int :=
  match s, e with
  | some sv, some ev => ev - sv
  | _, _ => 0

/-- Modelled from the spec: the Booking schema variant carrying `total_amount`
(the one views.py and serializers.py read via `booking.total_amount`) is not
under src/ — models.py holds a divergent schema without that column and the
migration omits it as well.  The spec defines the derived attribute as
`total_amount = nights × listing.price_per_night`; price is in whole currency
units. -/
def totalAmount (pricePerNight : Int) (s e : Int) : Int :=
  nightsCount (some s) (some e) * pricePerNight

/-- Day ordinal of a proleptic-Gregorian calendar date, the standard
days-from-civil computation; embeds Python `datetime.date` subtraction for the
concrete dates appearing in the spec's examples (all arithmetic there is on
positive values, where every integer-division convention agrees). -/
def daysFromCivil (y m d : Int) : Int :=
  let yAdj := if m ≤ 2 then y - 1 else y
  let era := (if 0 ≤ yAdj then yAdj else yAdj - 399) / 400
  let yoe := yAdj - era * 400
  let mp := (m + 9) % 12
  let doy := (153 * mp + 2) / 5 + d - 1
  let doe := yoe * 365 + yoe / 4 - yoe / 100 + doy
  era * 146097 + doe - 719468

/-- The effective `ChapaService._validate_email` (chapa_service.py lines
36-55).  The function raises only for an empty/blank email; it then binds the
regex pattern string and ends — the grammar, blocked-domain, length and
dot-placement checks sit after `return None` inside the first
`get_payment_status` definition (lines 330-352) and are unreachable — so every
non-blank email yields Python `None` (here `Option.none`), not the cleaned
address. -/
def validateEmail (email : String) : Except String (Option String) :=
  if stripStr email = "" then Except.error "Email address is required"
  else Except.ok none

/-- The status dictionary of `ChapaService.get_payment_status`
(chapa_service.py, effective second definition, lines 592-618). -/
def statusMapping : Dict :=
  [("success", "completed"), ("pending", "processing"),
   ("failed", "failed"), ("cancelled", "cancelled")]

/-- `ChapaService.get_payment_status`, parameterized by the outcome of
`verify_payment`: `None` on verification failure, otherwise
`status_mapping.get(chapa_status, "pending")` of the lowercased
`data.status` (absent status defaults to the empty string). -/
def getPaymentStatus (verifyOk : Bool) (dataStatus : Option String) :
    Option String :=
  if verifyOk then
    let cs := lowerStr (dataStatus.getD "")
    some (((statusMapping.find? (fun kv => kv.1 == cs)).map
      (fun kv => kv.2)).getD "pending")
  else none

/-- `PaymentWebhookSerializer.validate_status` (serializers.py): accept only
success / failed / cancelled / pending, case-insensitively, returning the
lowercased value; anything else raises a ValidationError.  The webhook view
never invokes this serializer. -/
def paymentWebhookValidateStatus (value : String) : Except String String :=
  if lowerStr value = "success" ∨ lowerStr value = "failed"
      ∨ lowerStr value = "cancelled" ∨ lowerStr value = "pending" then
    Except.ok (lowerStr value)
  else
    Except.error "Invalid status. Must be one of: success, failed, cancelled, pending"

/-- A stored Booking row as seen by `BookingViewSet.destroy`. -/
structure BookingRow where
  id : Nat
  status : BookStatus
deriving DecidableEq, Repr

/-- The `destroy` override of the first `BookingViewSet` class
(views.py lines 93-103): refuse with HTTP 400 when the booking is confirmed,
otherwise fall through to the default deletion. -/
def bookingDestroyGuarded (db : List BookingRow) (b : BookingRow) :
    Resp × List BookingRow :=
  if b.status = BookStatus.confirmed then
    (Resp.badRequest "Cannot delete a confirmed booking.", db)
  else
    (Resp.noContent, db.filter (fun x => !(x.id == b.id)))

/-- The default `ModelViewSet.destroy`: delete unconditionally, HTTP 204. -/
def bookingDestroyDefault (db : List BookingRow) (b : BookingRow) :
    Resp × List BookingRow :=
  (Resp.noContent, db.filter (fun x => !(x.id == b.id)))

/-- The delete behavior of the `BookingViewSet` name the router registers:
views.py defines `class BookingViewSet` twice, and the second definition
(line 549) rebinds the module-level name, so `urls.py`'s
`router.register(..., views.BookingViewSet, ...)` resolves to the second
class, which has no `destroy` override — the guard of lines 93-103 is dead
code and the default destroy applies. -/
def bookingViewSetDestroy (db : List BookingRow) (b : BookingRow) :
    Resp × List BookingRow :=
  bookingDestroyDefault db b

/-- A pending Payment row used by the concrete checks. -/
def examplePending : PaymentRec :=
  ⟨1, "ALX_TRAVEL_AAAA1111", PayStatus.pending, none, [("init", "1")],
    BookStatus.pending⟩

/-- An already-completed Payment row used by the concrete checks. -/
def exampleCompleted : PaymentRec :=
  ⟨2, "ALX_TRAVEL_BBBB2222", PayStatus.completed, some 10, [],
    BookStatus.confirmed⟩

/-- A provider webhook payload reporting success for `examplePending`. -/
def successPayload : WebhookPayload :=
  ⟨some "ALX_TRAVEL_AAAA1111", some "success", none,
    [("tx_ref", "ALX_TRAVEL_AAAA1111"), ("status", "success")]⟩

/-- A provider webhook payload reporting a pending transaction. -/
def pendingPayload : WebhookPayload :=
  ⟨some "ALX_TRAVEL_AAAA1111", some "pending", none, [("status", "pending")]⟩

/-- A provider webhook payload reporting failure for `exampleCompleted`. -/
def failedPayload : WebhookPayload :=
  ⟨some "ALX_TRAVEL_BBBB2222", some "failed", some "Insufficient funds",
    [("status", "failed")]⟩

/-- A provider webhook payload with an out-of-vocabulary status value. -/
def refundedPayload : WebhookPayload :=
  ⟨some "ALX_TRAVEL_AAAA1111", some "refunded", none, [("status", "refunded")]⟩

/-- A provider webhook payload whose tx_ref matches no stored Payment. -/
def unknownRefPayload : WebhookPayload :=
  ⟨some "NO_SUCH_REF", some "success", none,
    [("tx_ref", "NO_SUCH_REF"), ("status", "success")]⟩

/-- A Chapa verify response whose data reports success. -/
def successResponse : ChapaResponse :=
  ⟨some ⟨some "success", none⟩, [("status", "success")]⟩

/-- A stored pending booking on listing 7, days 10 to 20. -/
def exampleBooking : BookingRec := ⟨1, 7, 10, 20, BookStatus.pending⟩

/-- A stored confirmed booking row. -/
def confirmedBookingRow : BookingRow := ⟨5, BookStatus.confirmed⟩

/-! ## Helper lemmas -/

theorem filter_self_idem {α : Type} (p : α → Bool) (l : List α) :
    (l.filter p).filter p = l.filter p := by
  induction l with
  | nil => rfl
  | cons a t ih => cases hpa : p a <;> simp [List.filter_cons, hpa, ih]

theorem dictUpdate_idem (o n : Dict) :
    dictUpdate (dictUpdate o n) n = dictUpdate o n := by
  unfold dictUpdate
  rw [List.filter_append, filter_self_idem]
  have h2 : n.filter (fun kv => !(n.any (fun kv2 => kv2.1 == kv.1))) = [] := by
    rw [List.filter_eq_nil_iff]
    intro kv hkv
    have hany : n.any (fun kv2 => kv2.1 == kv.1) = true :=
      List.any_eq_true.mpr ⟨kv, hkv, by simp⟩
    simp [hany]
  rw [h2]
  simp

/-! ## Claim theorems -/

/-- Claim C1, counterexample: re-applying the same provider success payload a
second time through the webhook does not leave the Payment row unchanged —
`completed_at` is overwritten with the second application's time. -/
theorem C1_counterexample :
    (webhookApply (webhookApply examplePending successPayload 1).1
        successPayload 2).1
      ≠ (webhookApply examplePending successPayload 1).1 := by decide

/-- Claim C1 (amended): applying the same provider success outcome twice —
through the webhook with the same payload, or through verify with the same
provider response — dispatches exactly one confirmation email in total, and
the second application leaves the Payment status, the merged response data and
the Booking status unchanged; the completion timestamp, however, is overwritten
with the second application's time. -/
theorem C1_second_success_application
    (p : PaymentRec) (w : WebhookPayload) (r : ChapaResponse) (t1 t2 : Nat)
    (hw : wStatusOf w = "success") (hr : chapaStatusOf r = "success")
    (hp : p.status ≠ PayStatus.completed) :
    (((webhookApply p w t1).2
        ++ (webhookApply (webhookApply p w t1).1 w t2).2).length = 1
      ∧ (webhookApply (webhookApply p w t1).1 w t2).1.status
          = (webhookApply p w t1).1.status
      ∧ (webhookApply (webhookApply p w t1).1 w t2).1.bookingStatus
          = (webhookApply p w t1).1.bookingStatus
      ∧ (webhookApply (webhookApply p w t1).1 w t2).1.chapaResponseData
          = (webhookApply p w t1).1.chapaResponseData
      ∧ (webhookApply (webhookApply p w t1).1 w t2).1.completedAt = some t2)
    ∧ (((verifyHandler p true r t1).emails
        ++ (verifyHandler (verifyHandler p true r t1).payment true r
              t2).emails).length = 1
      ∧ (verifyHandler (verifyHandler p true r t1).payment true r
            t2).payment.status = (verifyHandler p true r t1).payment.status
      ∧ (verifyHandler (verifyHandler p true r t1).payment true r
            t2).payment.bookingStatus
          = (verifyHandler p true r t1).payment.bookingStatus
      ∧ (verifyHandler (verifyHandler p true r t1).payment true r
            t2).payment.chapaResponseData
          = (verifyHandler p true r t1).payment.chapaResponseData
      ∧ (verifyHandler (verifyHandler p true r t1).payment true r
            t2).payment.completedAt = some t2) := by
  constructor
  · simp [webhookApply, hw, hp, dictUpdate_idem]
  · simp [verifyHandler, hr, hp, dictUpdate_idem]

/-- Claim C1 witness: concrete double success webhook — one email in total and
the completion timestamp re-set to the second time. -/
theorem C1_second_success_application_witness :
    ((webhookApply examplePending successPayload 1).2
        ++ (webhookApply (webhookApply examplePending successPayload 1).1
              successPayload 2).2).length = 1
      ∧ (webhookApply (webhookApply examplePending successPayload 1).1
            successPayload 2).1.completedAt = some 2 := by
  have h := C1_second_success_application examplePending successPayload
    successResponse 1 2 (by decide) (by decide) (by decide)
  exact ⟨h.1.1, h.1.2.2.2.2⟩

/-- Claim C2, counterexample: a provider "pending" status on a pending Payment
does not move it to processing in the webhook handler — the status is left
untouched (the pending-to-processing mapping exists only in
`ChapaService.get_payment_status`). -/
theorem C2_counterexample :
    (webhookApply examplePending pendingPayload 5).1.status
        = PayStatus.pending
      ∧ (webhookApply examplePending pendingPayload 5).1.status
          ≠ PayStatus.processing := by decide

/-- Claim C2 (amended): the verify and webhook handlers share the success and
failed/cancelled rules — provider "success" sets the Payment to completed with
a completion timestamp and confirms the Booking, "failed"/"cancelled" mirror
that value — but provider "pending" leaves the Payment status (and timestamp
and Booking status) unchanged in both handlers rather than moving a pending
Payment to processing. -/
theorem C2_status_mapping
    (p : PaymentRec) (w : WebhookPayload) (r : ChapaResponse) (t : Nat) :
    (wStatusOf w = "success" →
      (webhookApply p w t).1.status = PayStatus.completed
        ∧ (webhookApply p w t).1.bookingStatus = BookStatus.confirmed
        ∧ (webhookApply p w t).1.completedAt = some t)
    ∧ (wStatusOf w = "failed" →
        (webhookApply p w t).1.status = PayStatus.failed)
    ∧ (wStatusOf w = "cancelled" →
        (webhookApply p w t).1.status = PayStatus.cancelled)
    ∧ (wStatusOf w = "pending" →
        (webhookApply p w t).1.status = p.status
          ∧ (webhookApply p w t).1.bookingStatus = p.bookingStatus
          ∧ (webhookApply p w t).1.completedAt = p.completedAt)
    ∧ (chapaStatusOf r = "success" →
        (verifyHandler p true r t).payment.status = PayStatus.completed
          ∧ (verifyHandler p true r t).payment.bookingStatus
              = BookStatus.confirmed
          ∧ (verifyHandler p true r t).payment.completedAt = some t)
    ∧ (chapaStatusOf r = "failed" →
        (verifyHandler p true r t).payment.status = PayStatus.failed)
    ∧ (chapaStatusOf r = "cancelled" →
        (verifyHandler p true r t).payment.status = PayStatus.cancelled)
    ∧ (chapaStatusOf r = "pending" →
        (verifyHandler p true r t).payment.status = p.status
          ∧ (verifyHandler p true r t).payment.bookingStatus = p.bookingStatus
          ∧ (verifyHandler p true r t).payment.completedAt = p.completedAt) := by
  refine ⟨fun h => ?_, fun h => ?_, fun h => ?_, fun h => ?_, fun h => ?_,
    fun h => ?_, fun h => ?_, fun h => ?_⟩ <;>
    simp [webhookApply, verifyHandler, h]

/-- Claim C2 witness: concrete success webhook on a pending Payment. -/
theorem C2_status_mapping_witness :
    (webhookApply examplePending successPayload 3).1.status
        = PayStatus.completed
      ∧ (webhookApply examplePending successPayload 3).1.bookingStatus
          = BookStatus.confirmed
      ∧ (webhookApply examplePending successPayload 3).1.completedAt
          = some 3 :=
  (C2_status_mapping examplePending successPayload successResponse 3).1
    (by decide)

/-- Claim C3, counterexample: a terminal (completed) Payment is regressed by a
"failed" webhook — the handlers apply a conflicting provider outcome without
guarding terminal states. -/
theorem C3_counterexample :
    exampleCompleted.status = PayStatus.completed
      ∧ (webhookApply exampleCompleted failedPayload 3).1.status
          ≠ exampleCompleted.status := by decide

/-- Claim C3 (amended): a terminal Payment keeps its status when the provider
re-reports the matching outcome, or reports a status outside
success/failed/cancelled; but a conflicting provider outcome overwrites the
terminal status (the handlers never consult the old status before assigning). -/
theorem C3_terminal_stability
    (p : PaymentRec) (w : WebhookPayload) (r : ChapaResponse) (t : Nat) :
    (p.status = PayStatus.completed → wStatusOf w = "success" →
      (webhookApply p w t).1.status = PayStatus.completed)
    ∧ (p.status = PayStatus.failed → wStatusOf w = "failed" →
        (webhookApply p w t).1.status = PayStatus.failed)
    ∧ (p.status = PayStatus.cancelled → wStatusOf w = "cancelled" →
        (webhookApply p w t).1.status = PayStatus.cancelled)
    ∧ (wStatusOf w ≠ "success" → wStatusOf w ≠ "failed" →
        wStatusOf w ≠ "cancelled" →
        (webhookApply p w t).1.status = p.status)
    ∧ (p.status = PayStatus.completed → chapaStatusOf r = "success" →
        (verifyHandler p true r t).payment.status = PayStatus.completed)
    ∧ (p.status = PayStatus.failed → chapaStatusOf r = "failed" →
        (verifyHandler p true r t).payment.status = PayStatus.failed)
    ∧ (p.status = PayStatus.cancelled → chapaStatusOf r = "cancelled" →
        (verifyHandler p true r t).payment.status = PayStatus.cancelled)
    ∧ (chapaStatusOf r ≠ "success" → chapaStatusOf r ≠ "failed" →
        chapaStatusOf r ≠ "cancelled" →
        (verifyHandler p true r t).payment.status = p.status) := by
  refine ⟨fun h1 h2 => ?_, fun h1 h2 => ?_, fun h1 h2 => ?_,
    fun h1 h2 h3 => ?_, fun h1 h2 => ?_, fun h1 h2 => ?_, fun h1 h2 => ?_,
    fun h1 h2 h3 => ?_⟩ <;>
    simp_all [webhookApply, verifyHandler]

/-- Claim C3 witness: a completed Payment stays completed when the provider
re-reports success through the webhook. -/
theorem C3_terminal_stability_witness :
    (webhookApply exampleCompleted
      ⟨some "ALX_TRAVEL_BBBB2222", some "success", none,
        [("status", "success")]⟩ 9).1.status = PayStatus.completed :=
  (C3_terminal_stability exampleCompleted
      ⟨some "ALX_TRAVEL_BBBB2222", some "success", none,
        [("status", "success")]⟩ successResponse 9).1
    (by decide) (by decide)

/-- Claim C4: a webhook whose tx_ref matches no stored Payment performs no
mutation, but — because the handler's local `status` string shadows the
imported `rest_framework.status` module — the intended 404 response raises an
AttributeError and the endpoint answers HTTP 500 "Webhook processing failed",
not a not-found error. -/
theorem C4_webhook_unknown_txref :
    webhookEndpoint [examplePending] unknownRefPayload 7
      = ⟨[examplePending], [], Resp.serverError "Webhook processing failed"⟩ := by
  decide

/-- Claim C5, counterexample: a partial update supplying only the dates — so
`data.get("listing")` is `None` — passes `BookingWithPaymentSerializer.validate`
even though its date range intersects a stored pending booking on the same
listing (the overlap query runs only under `if listing:`), so the overlapping
pending/confirmed pair comes to coexist through an accepted update attempt. -/
theorem C5_counterexample :
    overlappingExists [exampleBooking] 7 15 25 (some 2) = true
      ∧ bookingValidate [exampleBooking] 0 none 15 25 (some 2)
          = Except.ok () :=
  ⟨rfl, rfl⟩

/-- Claim C5 (amended): when the request supplies the listing, validation
rejects any request whose date range intersects a stored pending or confirmed
booking on that listing (excluding the instance being updated); but the
overlap query is guarded by `if listing:`, so a partial update omitting the
listing field skips the check entirely and — provided the date checks pass —
is accepted, letting an overlapping pending/confirmed pair coexist. -/
theorem C5_overlap_rejected (db : List BookingRec) (today : Int) (l : Nat)
    (s e : Int) (inst : Option Nat) (b : BookingRec)
    (hb : b ∈ db) (hl : b.listing = l)
    (h1 : b.startDate < e) (h2 : s < b.endDate)
    (hs : b.status = BookStatus.pending ∨ b.status = BookStatus.confirmed)
    (hx : inst ≠ some b.id) :
    bookingValidate db today (some l) s e inst ≠ Except.ok ()
      ∧ (1 ≤ e - s → today ≤ s →
          bookingValidate db today none s e inst = Except.ok ()) := by
  constructor
  · intro hok
    have hov : overlappingExists db l s e inst = true := by
      unfold overlappingExists
      rw [List.any_eq_true]
      refine ⟨b, hb, ?_⟩
      simp only [Bool.and_eq_true, Bool.or_eq_true, Bool.not_eq_true',
        decide_eq_true_eq, decide_eq_false_iff_not]
      refine ⟨⟨⟨⟨hl, h1⟩, h2⟩, ?_⟩, hx⟩
      rcases hs with h | h <;> simp [h]
    unfold bookingValidate at hok
    split_ifs at hok
    simp_all [hov]
  · intro hn ht
    unfold bookingValidate
    rw [if_neg (by omega), if_neg (by omega), if_neg (by omega)]

/-- Claim C5 witness: with the listing supplied the concrete intersecting
update on listing 7 is rejected; with the listing omitted the same dates are
accepted. -/
theorem C5_overlap_rejected_witness :
    bookingValidate [exampleBooking] 0 (some 7) 15 25 (some 2)
        ≠ Except.ok ()
      ∧ bookingValidate [exampleBooking] 0 none 15 25 (some 2)
          = Except.ok () := by
  have h := C5_overlap_rejected [exampleBooking] 0 7 15 25 (some 2)
    exampleBooking (by decide) (by decide) (by decide) (by decide)
    (by decide) (by decide)
  exact ⟨h.1, h.2 (by decide) (by decide)⟩

/-- Claim C6: every booking request accepted by
`BookingWithPaymentSerializer.validate` has at least one night, the derived
total equals nights times the nightly price (total_amount modelled from the
spec, see `totalAmount`), and in particular a booking from 2025-06-01 to
2025-06-04 at 100 per night totals 300. -/
theorem C6_total_amount :
    (∀ (db : List BookingRec) (today : Int) (l : Option Nat) (s e : Int)
        (inst : Option Nat) (price : Int),
      bookingValidate db today l s e inst = Except.ok () →
        1 ≤ nightsCount (some s) (some e)
          ∧ totalAmount price s e = (e - s) * price)
    ∧ totalAmount 100 (daysFromCivil 2025 6 1) (daysFromCivil 2025 6 4)
        = 300 := by
  constructor
  · intro db today l s e inst price hok
    unfold bookingValidate at hok
    split_ifs at hok with hge hlt hpast
    refine ⟨?_, rfl⟩
    show (1 : Int) ≤ e - s
    omega
  · decide

/-- Claim C6 witness: the validator accepts the 2025-06-01 to 2025-06-04
request on an empty table, and the theorem yields nights ≥ 1 and the
nights-times-price product for it. -/
theorem C6_total_amount_witness :
    1 ≤ nightsCount (some (daysFromCivil 2025 6 1))
        (some (daysFromCivil 2025 6 4))
      ∧ totalAmount 100 (daysFromCivil 2025 6 1) (daysFromCivil 2025 6 4)
          = (daysFromCivil 2025 6 4 - daysFromCivil 2025 6 1) * 100 :=
  C6_total_amount.1 [] (daysFromCivil 2025 6 1) (some 7)
    (daysFromCivil 2025 6 1) (daysFromCivil 2025 6 4) none 100 (by rfl)

/-- Claim C7: the effective `ChapaService._validate_email` performs none of the
documented grammar, blocked-domain, length or dot-placement checks — a
blocked-domain address and a consecutive-dots address pass without a
validation error, and even a well-formed address is not returned
trimmed-and-lowercased: every non-blank input yields Python `None`, which is
what `initiate_payment` then places in the provider payload. -/
theorem C7_validate_email_no_validation :
    validateEmail "demo@example.com" = Except.ok none
      ∧ validateEmail "bad..dots@gmail.com" = Except.ok none
      ∧ validateEmail " Valid.User@GMail.com " = Except.ok none :=
  ⟨rfl, rfl, rfl⟩

/-- Claim C8, counterexample: a webhook whose status is the out-of-vocabulary
value "refunded" is not rejected — the endpoint answers HTTP 200 success and
still mutates the Payment row by merging the payload into
`chapa_response_data` (the webhook view never runs
`PaymentWebhookSerializer`). -/
theorem C8_counterexample :
    (webhookEndpoint [examplePending] refundedPayload 4).resp = Resp.ok
      ∧ (webhookEndpoint [examplePending] refundedPayload 4).db
          ≠ [examplePending] := by decide

/-- Claim C8 (amended): `PaymentWebhookSerializer.validate_status` does reject
any status outside success/failed/cancelled/pending (case-insensitively), but
the webhook endpoint never invokes that serializer: an out-of-vocabulary
status leaves the Payment status, completion timestamp and Booking status
unchanged and dispatches no email, yet the payload is still merged into
`chapa_response_data` and the row saved. -/
theorem C8_unknown_status (p : PaymentRec) (w : WebhookPayload) (t : Nat)
    (h1 : wStatusOf w ≠ "success") (h2 : wStatusOf w ≠ "failed")
    (h3 : wStatusOf w ≠ "cancelled") (h4 : wStatusOf w ≠ "pending") :
    paymentWebhookValidateStatus (w.status.getD "")
        = Except.error
            "Invalid status. Must be one of: success, failed, cancelled, pending"
      ∧ (webhookApply p w t).1.status = p.status
      ∧ (webhookApply p w t).1.completedAt = p.completedAt
      ∧ (webhookApply p w t).1.bookingStatus = p.bookingStatus
      ∧ (webhookApply p w t).2 = []
      ∧ (webhookApply p w t).1.chapaResponseData
          = dictUpdate p.chapaResponseData w.raw := by
  unfold wStatusOf at h1 h2 h3 h4
  refine ⟨?_, ?_⟩
  · unfold paymentWebhookValidateStatus
    rw [if_neg]
    push_neg
    exact ⟨h1, h2, h3, h4⟩
  · simp [webhookApply, wStatusOf, h1, h2, h3]

/-- Claim C8 witness: the concrete "refunded" webhook payload — serializer
rejection plus the unchanged-status, no-email behavior of the handler. -/
theorem C8_unknown_status_witness :
    paymentWebhookValidateStatus (refundedPayload.status.getD "")
        = Except.error
            "Invalid status. Must be one of: success, failed, cancelled, pending"
      ∧ (webhookApply examplePending refundedPayload 4).1.status
          = examplePending.status
      ∧ (webhookApply examplePending refundedPayload 4).1.completedAt
          = examplePending.completedAt
      ∧ (webhookApply examplePending refundedPayload 4).1.bookingStatus
          = examplePending.bookingStatus
      ∧ (webhookApply examplePending refundedPayload 4).2 = []
      ∧ (webhookApply examplePending refundedPayload 4).1.chapaResponseData
          = dictUpdate examplePending.chapaResponseData refundedPayload.raw :=
  C8_unknown_status examplePending refundedPayload 4
    (by decide) (by decide) (by decide) (by decide)

/-- Claim C9: the `destroy` guard refusing deletion of confirmed bookings
(first `BookingViewSet`, views.py lines 93-103) is dead code — the second
`class BookingViewSet` (line 549) rebinds the name the router registers and
has no destroy override, so the registered endpoint deletes a confirmed
booking via the default destroy, while the shadowed guard would have refused
with HTTP 400 and kept the row. -/
theorem C9_confirmed_booking_deleted :
    bookingViewSetDestroy [confirmedBookingRow] confirmedBookingRow
        = (Resp.noContent, [])
      ∧ bookingDestroyGuarded [confirmedBookingRow] confirmedBookingRow
          = (Resp.badRequest "Cannot delete a confirmed booking.",
              [confirmedBookingRow]) := by decide

/-- Claim C10: `ChapaService.get_payment_status` returns none exactly when
`verify_payment` reports failure, and otherwise maps the provider status:
success to completed, pending to processing, failed to failed, cancelled to
cancelled, and any other (or absent) status to "pending" by default. -/
theorem C10_get_payment_status :
    (∀ ds, getPaymentStatus false ds = none)
    ∧ (∀ b ds, getPaymentStatus b ds = none → b = false)
    ∧ getPaymentStatus true (some "success") = some "completed"
    ∧ getPaymentStatus true (some "pending") = some "processing"
    ∧ getPaymentStatus true (some "failed") = some "failed"
    ∧ getPaymentStatus true (some "cancelled") = some "cancelled"
    ∧ getPaymentStatus true none = some "pending"
    ∧ (∀ s, lowerStr s ≠ "success" → lowerStr s ≠ "pending" →
        lowerStr s ≠ "failed" → lowerStr s ≠ "cancelled" →
        getPaymentStatus true (some s) = some "pending") := by
  refine ⟨fun ds => rfl, fun b ds h => ?_, by decide, by decide, by decide,
    by decide, by decide, fun s h1 h2 h3 h4 => ?_⟩
  · cases b with
    | false => rfl
    | true => simp [getPaymentStatus] at h
  · have e1 : (("success" : String) == lowerStr s) = false := by
      simp [h1.symm]
    have e2 : (("pending" : String) == lowerStr s) = false := by
      simp [h2.symm]
    have e3 : (("failed" : String) == lowerStr s) = false := by
      simp [h3.symm]
    have e4 : (("cancelled" : String) == lowerStr s) = false := by
      simp [h4.symm]
    simp [getPaymentStatus, statusMapping, List.find?, e1, e2, e3, e4]

/-- Claim C10 witness: verify success with the unmapped provider status
"refunded" yields the default "pending". -/
theorem C10_get_payment_status_witness :
    getPaymentStatus true (some "refunded") = some "pending" :=
  C10_get_payment_status.2.2.2.2.2.2.2 "refunded"
    (by decide) (by decide) (by decide) (by decide)

end AlxTravel
